import Mathlib

/-!
Verification of the pygenguard decision pipeline, plugin registry and
session stores. Python code is shallowly embedded: dataclasses become
structures, dicts become association lists with in-place-replace insertion,
raised exceptions become Except.error, and the current wall-clock time is
passed explicitly where the code calls datetime.utcnow().
-/

set_option linter.unusedVariables false

namespace PyGenGuard

/-- Action carried by a final verdict (the Decision.action string field). -/
inductive GuardAction where
  | ALLOW
  | BLOCK
  | DEGRADE
deriving DecidableEq

/-- One plane check outcome (pygenguard.decision.PlaneResult). Float scores
are modelled as rationals. -/
structure PlaneResult where
  plane_name : String
  passed : Bool
  risk_score : Rat
  details : String
  latency_ms : Rat
deriving DecidableEq

/-- The final verdict of one evaluation (pygenguard.decision.Decision);
plane_results is a name-keyed dict in insertion order. -/
structure Decision where
  trace_id : String
  allowed : Bool
  action : GuardAction
  rationale : String
  safe_response : Option String
  plane_results : List (String × PlaneResult)
deriving DecidableEq

/-- Python dict assignment d[k] = v: the entry is replaced in place when the
key is present, otherwise appended at the end. -/
def assocInsert {α : Type} : List (String × α) → String → α → List (String × α)
  | [], k, v => [(k, v)]
  | (k', v') :: rest, k, v =>
      if k' = k then (k, v) :: rest else (k', v') :: assocInsert rest k v

/-- Python dict lookup d.get(k). -/
def assocLookup {α : Type} : List (String × α) → String → Option α
  | [], _ => none
  | (k', v') :: rest, k => if k' = k then some v' else assocLookup rest k

/-- Python dict deletion del d[k] (removes the first matching entry). -/
def assocErase {α : Type} : List (String × α) → String → List (String × α)
  | [], _ => []
  | (k', v') :: rest, k => if k' = k then rest else (k', v') :: assocErase rest k

/-- Modelled from the spec: pygenguard/decision.py is not under src/.
Decision.create_block builds a BLOCK verdict; per spec sections 3 and 7 a
BLOCK decision is not allowed and carries an operator rationale and a
user-facing safe_response (the src tests assert allowed is False together
with action BLOCK). -/
def createBlock (trace_id : String) (plane_results : List (String × PlaneResult))
    (rationale : String) (safe_response : String) : Decision :=
  { trace_id := trace_id, allowed := false, action := .BLOCK,
    rationale := rationale, safe_response := some safe_response,
    plane_results := plane_results }

/-- Modelled from the spec: default safe_response attached to a DEGRADE
verdict (spec section 7: every non-ALLOW Decision carries a safe_response;
the pipeline calls create_degrade without passing one). -/
def degradeSafeResponse : String := "Response may be limited."

/-- Modelled from the spec: Decision.create_degrade builds a DEGRADE
verdict; it is a soft rate-limit, still allowed (the src tests accept
allowed True with action either ALLOW or DEGRADE). -/
def createDegrade (trace_id : String) (plane_results : List (String × PlaneResult))
    (rationale : String) : Decision :=
  { trace_id := trace_id, allowed := true, action := .DEGRADE,
    rationale := rationale, safe_response := some degradeSafeResponse,
    plane_results := plane_results }

/-- Modelled from the spec: Decision.create_allow builds the implicit ALLOW
verdict reached when every plane passed. -/
def createAllow (trace_id : String) (plane_results : List (String × PlaneResult))
    (rationale : String) : Decision :=
  { trace_id := trace_id, allowed := true, action := .ALLOW,
    rationale := rationale, safe_response := none,
    plane_results := plane_results }

/-- The six plugin insertion points (pygenguard.plugins.base.PlanePhase). -/
inductive PlanePhase where
  | PRE_IDENTITY
  | POST_IDENTITY
  | POST_INTENT
  | POST_CONTEXT
  | POST_ECONOMICS
  | POST_COMPLIANCE
deriving DecidableEq

/-- Plugin metadata (pygenguard.plugins.base.PlaneConfig). -/
structure PlaneConfig where
  name : String
  phase : PlanePhase
  enabled : Bool := true
  priority : Int := 100
  fail_action : String := "block"
deriving DecidableEq

/-- One registered plugin as observed during a single evaluation: its static
configuration together with the outcome of its evaluate_async call on that
run; Except.error models the call raising an exception. -/
structure PluginRun where
  config : PlaneConfig
  outcome : Except String PlaneResult

/-- Stable insertion into a priority-sorted list: the inserted element goes
before the first element of not-smaller priority, matching the stability of
Python sorted. -/
def insertByPriority (p : PluginRun) : List PluginRun → List PluginRun
  | [] => [p]
  | q :: qs =>
      if p.config.priority ≤ q.config.priority then p :: q :: qs
      else q :: insertByPriority p qs

/-- Stable sort by ascending priority (PlaneRegistry.get_by_phase uses
Python sorted keyed on priority). -/
def sortByPriority : List PluginRun → List PluginRun
  | [] => []
  | p :: ps => insertByPriority p (sortByPriority ps)

/-- PlaneRegistry.get_by_phase followed by AsyncGuard._get_plugins_for_phase
and the per-phase gather: the plugins of the phase, sorted by ascending
priority, filtered to the enabled ones, each contributing its evaluate_async
outcome; gather runs with return_exceptions so exceptions come back as
values in the list. -/
def phaseOutcomes (phase : PlanePhase) (plugins : List PluginRun) :
    List (Except String PlaneResult) :=
  ((sortByPriority (plugins.filter (fun p => p.config.phase == phase))).filter
      (fun p => p.config.enabled)).map (fun p => p.outcome)

/-- The PRE_IDENTITY result loop of AsyncGuard.inspect: each PlaneResult in
the gathered list is recorded under its plane_name; on the first recorded
failure the pipeline immediately returns a BLOCK decision built from the
results recorded so far. Gathered values that are not PlaneResults (captured
exceptions) are skipped. -/
def runPreIdentity (trace_id : String) :
    List (Except String PlaneResult) → List (String × PlaneResult) →
    Sum (List (String × PlaneResult)) Decision
  | [], d => .inl d
  | (.error _) :: rest, d => runPreIdentity trace_id rest d
  | (.ok pr) :: rest, d =>
      let d' := assocInsert d pr.plane_name pr
      if pr.passed then runPreIdentity trace_id rest d'
      else .inr (createBlock trace_id d'
        ("Pre-identity plugin failed: " ++ pr.details) "Request validation failed.")

/-- The POST_* result loops of AsyncGuard.inspect: every gathered
PlaneResult is recorded under its plane_name, anything else (a captured
exception) is skipped, and the pipeline always continues. -/
def recordOnly (d : List (String × PlaneResult)) :
    List (Except String PlaneResult) → List (String × PlaneResult)
  | [] => d
  | (.error _) :: rest => recordOnly d rest
  | (.ok pr) :: rest => recordOnly (assocInsert d pr.plane_name pr) rest

/-- Outcomes of the five built-in plane evaluations for one run. The plane
heuristics (pygenguard/planes/*) are external collaborators; AsyncGuard runs
each evaluate in the worker pool, and an exception raised there propagates
out of inspect (modelled as Except.error). -/
structure PipelineInput where
  identity_result : Except String PlaneResult
  intent_result : Except String PlaneResult
  context_result : Except String PlaneResult
  economics_result : Except String PlaneResult
  compliance_result : Except String PlaneResult

/-- AsyncGuard.inspect: the full phase-ordered pipeline producing one
Decision, or propagating an unhandled built-in fault. Session token
accounting before the economics plane and audit logging are side effects on
external state with no bearing on the returned Decision and are not part of
this state. The source safe-response text for a failing intent check uses a
contraction; it is rendered here without the apostrophe. -/
def inspect (trace_id : String) (inp : PipelineInput) (plugins : List PluginRun) :
    Except String Decision :=
  match runPreIdentity trace_id (phaseOutcomes .PRE_IDENTITY plugins) [] with
  | .inr dec => .ok dec
  | .inl d0 =>
    match inp.identity_result with
    | .error e => .error e
    | .ok identity_result =>
      let d1 := assocInsert d0 "identity" identity_result
      if !identity_result.passed then
        .ok (createBlock trace_id d1
          ("Identity check failed: " ++ identity_result.details)
          "Session verification required.")
      else
        let d2 := recordOnly d1 (phaseOutcomes .POST_IDENTITY plugins)
        match inp.intent_result with
        | .error e => .error e
        | .ok intent_result =>
          let d3 := assocInsert d2 "intent" intent_result
          if !intent_result.passed then
            .ok (createBlock trace_id d3
              ("Intent analysis failed: " ++ intent_result.details)
              "I cannot help with that request.")
          else
            let d4 := recordOnly d3 (phaseOutcomes .POST_INTENT plugins)
            match inp.context_result with
            | .error e => .error e
            | .ok context_result =>
              let d5 := assocInsert d4 "context" context_result
              if !context_result.passed then
                .ok (createBlock trace_id d5
                  ("Context analysis failed: " ++ context_result.details)
                  "This conversation cannot continue.")
              else
                let d6 := recordOnly d5 (phaseOutcomes .POST_CONTEXT plugins)
                match inp.economics_result with
                | .error e => .error e
                | .ok economics_result =>
                  let d7 := assocInsert d6 "economics" economics_result
                  if !economics_result.passed then
                    .ok (createDegrade trace_id d7
                      ("Rate limiting applied: " ++ economics_result.details))
                  else
                    let d8 := recordOnly d7 (phaseOutcomes .POST_ECONOMICS plugins)
                    match inp.compliance_result with
                    | .error e => .error e
                    | .ok compliance_result =>
                      let d9 := assocInsert d8 "compliance" compliance_result
                      let d10 := recordOnly d9 (phaseOutcomes .POST_COMPLIANCE plugins)
                      .ok (createAllow trace_id d10 "All security planes passed.")

/-- One item of an inspect_batch call: its trace id, built-in outcomes and
plugin set. -/
structure BatchReq where
  trace_id : String
  inp : PipelineInput
  plugins : List PluginRun

/-- asyncio.gather with its default return_exceptions=False as used by
inspect_batch: results come back in input order, and a raised exception
propagates to the caller, discarding the completed sibling results. -/
def gatherAll : List (Except String Decision) → Except String (List Decision)
  | [] => .ok []
  | (.error e) :: _ => .error e
  | (.ok d) :: rest =>
    match gatherAll rest with
    | .error e => .error e
    | .ok ds => .ok (d :: ds)

/-- AsyncGuard.inspect_batch: one inspect per (prompt, session) pair,
gathered in input order. -/
def inspectBatch (reqs : List BatchReq) : Except String (List Decision) :=
  gatherAll (reqs.map (fun r => inspect r.trace_id r.inp r.plugins))

/-- The gathered plugin outcomes that are PlaneResults (the only values the
result loops record). -/
def okResults : List (Except String PlaneResult) → List PlaneResult
  | [] => []
  | (.ok pr) :: rest => pr :: okResults rest
  | (.error _) :: rest => okResults rest

/-- Every gathered PlaneResult in the list passed. -/
def allOkPass (l : List (Except String PlaneResult)) : Bool :=
  (okResults l).all (fun pr => pr.passed)

/-- No gathered PlaneResult in the list carries the given plane name. -/
def noName (l : List (Except String PlaneResult)) (k : String) : Bool :=
  (okResults l).all (fun pr => pr.plane_name != k)

/-- Except value grading used in batch statements. -/
def isOkE {α : Type} : Except String α → Bool
  | .ok _ => true
  | .error _ => false

/-- Universe of JSON-serializable dict values appearing in a serialized
session record. Nested Dict[str, Any] payloads (the metadata field) are
modelled with string values. -/
inductive JValue where
  | jstr : String → JValue
  | jint : Int → JValue
  | jmap : List (String × String) → JValue
deriving DecidableEq

/-- pygenguard.adapters.base.SessionData. Timestamps (Python floats) are
modelled as integers; metadata values as strings. -/
structure SessionData where
  user_id : String
  fingerprint : String
  trust_score : Int
  last_seen : Int
  tokens_used : Int
  session_start : Int
  history_summary : String
  metadata : List (String × String)
deriving DecidableEq

/-- The dataclass field names of SessionData, the only keyword arguments its
constructor accepts. -/
def sessionFieldNames : List String :=
  ["user_id", "fingerprint", "trust_score", "last_seen", "tokens_used",
   "session_start", "history_summary", "metadata"]

/-- SessionData.to_dict (dataclasses.asdict): a flat field-named record. -/
def SessionData.toDict (s : SessionData) : List (String × JValue) :=
  [("user_id", .jstr s.user_id), ("fingerprint", .jstr s.fingerprint),
   ("trust_score", .jint s.trust_score), ("last_seen", .jint s.last_seen),
   ("tokens_used", .jint s.tokens_used), ("session_start", .jint s.session_start),
   ("history_summary", .jstr s.history_summary), ("metadata", .jmap s.metadata)]

/-- SessionData.from_dict, i.e. cls(**data): a keyword argument outside the
dataclass field set raises TypeError; user_id and fingerprint have no
default and must be present; every other field falls back to its dataclass
default, with now standing for the timestamp default factories. The model is
restricted to well-typed field values, which covers every record to_dict
produces (Python itself performs no runtime type validation). -/
def SessionData.fromDict (now : Int) (d : List (String × JValue)) :
    Except String SessionData := do
  if !(d.all (fun p => sessionFieldNames.contains p.1)) then
    throw "unexpected keyword argument"
  let uid ← match assocLookup d "user_id" with
    | some (.jstr s) => pure s
    | some _ => throw "ill-typed user_id"
    | none => throw "missing required argument user_id"
  let fp ← match assocLookup d "fingerprint" with
    | some (.jstr s) => pure s
    | some _ => throw "ill-typed fingerprint"
    | none => throw "missing required argument fingerprint"
  let trust ← match assocLookup d "trust_score" with
    | some (.jint n) => pure n
    | some _ => throw "ill-typed trust_score"
    | none => pure 100
  let seen ← match assocLookup d "last_seen" with
    | some (.jint n) => pure n
    | some _ => throw "ill-typed last_seen"
    | none => pure now
  let toks ← match assocLookup d "tokens_used" with
    | some (.jint n) => pure n
    | some _ => throw "ill-typed tokens_used"
    | none => pure 0
  let start ← match assocLookup d "session_start" with
    | some (.jint n) => pure n
    | some _ => throw "ill-typed session_start"
    | none => pure now
  let hist ← match assocLookup d "history_summary" with
    | some (.jstr s) => pure s
    | some _ => throw "ill-typed history_summary"
    | none => pure ""
  let meta ← match assocLookup d "metadata" with
    | some (.jmap m) => pure m
    | some _ => throw "ill-typed metadata"
    | none => pure []
  pure { user_id := uid, fingerprint := fp, trust_score := trust,
         last_seen := seen, tokens_used := toks, session_start := start,
         history_summary := hist, metadata := meta }

/-- One stored in-memory entry: the SessionData object together with its
absolute expiry timestamp (None means no expiry). -/
structure MemEntry where
  data : SessionData
  expiry : Option Int
deriving DecidableEq

/-- InMemorySessionStore state: the underlying dict plus the configured
default TTL. Each public operation runs under the instance lock and takes
the current time as an explicit parameter. -/
structure MemStore where
  store : List (String × MemEntry)
  default_ttl : Option Int
deriving DecidableEq

/-- InMemorySessionStore._is_expired. -/
def memIsExpired (now : Int) : Option Int → Bool
  | none => false
  | some e => now > e

/-- InMemorySessionStore.get: a missing key gives None; an expired entry is
deleted and reported as None; otherwise the stored data is returned. -/
def MemStore.get (st : MemStore) (now : Int) (uid : String) :
    Option SessionData × MemStore :=
  match assocLookup st.store uid with
  | none => (none, st)
  | some entry =>
    if memIsExpired now entry.expiry then
      (none, { st with store := assocErase st.store uid })
    else (some entry.data, st)

/-- The expiry a fresh effective TTL produces: a falsy effective TTL (None
or 0) stores no expiry, otherwise now plus the TTL. -/
def memExpiryOf (now : Int) : Option Int → Option Int
  | none => none
  | some t => if t = 0 then none else some (now + t)

/-- InMemorySessionStore.set: a ttl of None falls back to the default TTL;
the entry and its expiry are replaced unconditionally; always True. -/
def MemStore.set (st : MemStore) (now : Int) (uid : String) (data : SessionData)
    (ttl : Option Int) : Bool × MemStore :=
  let effective_ttl := match ttl with
    | some t => some t
    | none => st.default_ttl
  (true, { st with store := assocInsert st.store uid ⟨data, memExpiryOf now effective_ttl⟩ })

/-- BaseSessionStore.update_trust as inherited by InMemorySessionStore: a
get, a field update of trust_score and last_seen, then a set with no ttl
argument. The lock is held separately by the get and by the set. -/
def MemStore.updateTrust (st : MemStore) (now : Int) (uid : String) (score : Int) :
    Bool × MemStore :=
  match st.get now uid with
  | (none, st') => (false, st')
  | (some data, st') =>
      st'.set now uid { data with trust_score := score, last_seen := now } none

/-- BaseSessionStore.increment_tokens as inherited by InMemorySessionStore:
a get, an addition into tokens_used plus a last_seen update, then a set with
no ttl argument. -/
def MemStore.incrementTokens (st : MemStore) (now : Int) (uid : String) (count : Int) :
    Bool × MemStore :=
  match st.get now uid with
  | (none, st') => (false, st')
  | (some data, st') =>
      st'.set now uid
        { data with tokens_used := data.tokens_used + count, last_seen := now } none

/-- The write half of the inherited increment_tokens, separated out: the set
step applies the increment to a value read earlier, under its own lock
acquisition. Interleaving two calls therefore interleaves four atomic
steps. -/
def memIncWrite (st : MemStore) (now : Int) (uid : String) (data : SessionData)
    (count : Int) : MemStore :=
  (st.set now uid
    { data with tokens_used := data.tokens_used + count, last_seen := now } none).2

/-- Raw JSON session record as the Redis Lua scripts see it after
cjson.decode. tokens_used may be absent from a raw record; the increment
script defaults it to 0. -/
structure RedisRecord where
  user_id : String
  fingerprint : String
  trust_score : Int
  last_seen : Int
  tokens_used : Option Int
  session_start : Int
  history_summary : String
  metadata : List (String × String)
deriving DecidableEq

/-- One Redis key slot: the stored record and its absolute expiry. -/
structure RedisEntry where
  record : RedisRecord
  expiry : Option Int
deriving DecidableEq

/-- RedisSessionStore state: key space, key prefix and default TTL. -/
structure RedisStore where
  keyPfx : String
  default_ttl : Int
  store : List (String × RedisEntry)
deriving DecidableEq

/-- RedisSessionStore._key. -/
def RedisStore.key (st : RedisStore) (uid : String) : String := st.keyPfx ++ uid

/-- Liveness of an expiry at the given instant: Redis treats a key past its
expiry as gone. -/
def redisLive (now : Int) : Option Int → Bool
  | none => true
  | some e => now < e

/-- Redis GET: the record when the key is live, nil otherwise. -/
def redisGet (st : RedisStore) (now : Int) (k : String) : Option RedisRecord :=
  match assocLookup st.store k with
  | none => none
  | some e => if redisLive now e.expiry then some e.record else none

/-- Redis TTL: -2 for a missing key, -1 for a key without expiry, otherwise
the remaining seconds. -/
def redisTTL (st : RedisStore) (now : Int) (k : String) : Int :=
  match assocLookup st.store k with
  | none => -2
  | some e =>
    match e.expiry with
    | none => -1
    | some ex => ex - now

/-- RedisSessionStore.set: a ttl of None falls back to default_ttl; a
truthy effective TTL stores via SETEX (expiry now plus ttl), a zero one via
plain SET (no expiry); returns True (backend faults are out of scope). -/
def RedisStore.set (st : RedisStore) (now : Int) (uid : String) (r : RedisRecord)
    (ttl : Option Int) : Bool × RedisStore :=
  let effective_ttl := match ttl with
    | some t => t
    | none => st.default_ttl
  let k := st.key uid
  if effective_ttl = 0 then
    (true, { st with store := assocInsert st.store k ⟨r, none⟩ })
  else
    (true, { st with store := assocInsert st.store k ⟨r, some (now + effective_ttl)⟩ })

/-- RedisSessionStore.update_trust, Lua script path: one atomic script that
GETs the record, rewrites trust_score and last_seen, and writes it back with
SETEX under the remaining TTL when that is positive, else with a plain SET;
the Python wrapper reports whether the script returned 1. -/
def RedisStore.updateTrust (st : RedisStore) (now : Int) (uid : String) (score : Int) :
    Bool × RedisStore :=
  let k := st.key uid
  match redisGet st now k with
  | none => (false, st)
  | some r =>
    let r' := { r with trust_score := score, last_seen := now }
    let ttl := redisTTL st now k
    if ttl > 0 then
      (true, { st with store := assocInsert st.store k ⟨r', some (now + ttl)⟩ })
    else
      (true, { st with store := assocInsert st.store k ⟨r', none⟩ })

/-- RedisSessionStore.increment_tokens, Lua script path: one atomic script
that defaults a missing counter to 0, adds the count, rewrites last_seen and
writes the record back keeping a positive remaining TTL; the script returns
the new total and the Python wrapper reports whether that total is
positive. -/
def RedisStore.incrementTokens (st : RedisStore) (now : Int) (uid : String)
    (count : Int) : Bool × RedisStore :=
  let k := st.key uid
  match redisGet st now k with
  | none => (false, st)
  | some r =>
    let total := r.tokens_used.getD 0 + count
    let r' := { r with tokens_used := some total, last_seen := now }
    let ttl := redisTTL st now k
    let st' :=
      if ttl > 0 then
        { st with store := assocInsert st.store k ⟨r', some (now + ttl)⟩ }
      else
        { st with store := assocInsert st.store k ⟨r', none⟩ }
    (decide (total > 0), st')

/-- The in-memory store with one entry replaced (notation helper). -/
def MemStore.withEntry (mst : MemStore) (uid : String) (e : MemEntry) : MemStore :=
  { mst with store := assocInsert mst.store uid e }

/-- The Redis store with one key slot replaced (notation helper). -/
def RedisStore.withEntry (rst : RedisStore) (k : String) (e : RedisEntry) : RedisStore :=
  { rst with store := assocInsert rst.store k e }

/-- A custom plane class as the registry sees it: an identity tag and its
static configuration. -/
structure PlaneClass where
  classId : Nat
  config : PlaneConfig
deriving DecidableEq

/-- pygenguard.plugins.base.PlaneRegistry: a per-instance local scope plus
the process-wide class-level global scope, consulted by lookup after the
local one. -/
structure Registry where
  localReg : List (String × PlaneClass)
  globalReg : List (String × PlaneClass)
deriving DecidableEq

/-- PlaneRegistry.register: a duplicate name in the local scope without
override raises ValueError, otherwise the class is stored in the local scope
under its configured name. -/
def Registry.register (r : Registry) (c : PlaneClass) (override : Bool) :
    Except String Registry :=
  let name := c.config.name
  if (assocLookup r.localReg name).isSome && !override then
    .error "already registered"
  else
    .ok { r with localReg := assocInsert r.localReg name c }

/-- PlaneRegistry.get: the local scope shadows the global one. -/
def Registry.get (r : Registry) (name : String) : Option PlaneClass :=
  match assocLookup r.localReg name with
  | some c => some c
  | none => assocLookup r.globalReg name

/-- Concrete fixtures used by closed counterexample and witness
statements. -/
def prPass (n : String) : PlaneResult :=
  { plane_name := n, passed := true, risk_score := 0, details := "ok", latency_ms := 0 }

def prFail (n : String) : PlaneResult :=
  { plane_name := n, passed := false, risk_score := 1, details := "bad", latency_ms := 0 }

/-- A run in which all five built-in planes pass. -/
def inpAllPass : PipelineInput :=
  { identity_result := .ok (prPass "identity"), intent_result := .ok (prPass "intent"),
    context_result := .ok (prPass "context"), economics_result := .ok (prPass "economics"),
    compliance_result := .ok (prPass "compliance") }

/-- A run whose identity plane evaluation raises in the worker pool. -/
def inpBoom : PipelineInput :=
  { identity_result := .error "boom", intent_result := .ok (prPass "intent"),
    context_result := .ok (prPass "context"), economics_result := .ok (prPass "economics"),
    compliance_result := .ok (prPass "compliance") }

/-- A run whose identity check fails, the other built-ins passing. -/
def inpIdentityFail : PipelineInput :=
  { inpAllPass with identity_result := .ok (prFail "identity") }

/-- A run whose economics check fails, the other built-ins passing. -/
def inpEconomicsFail : PipelineInput :=
  { inpAllPass with economics_result := .ok (prFail "economics") }

/-- A run whose compliance check fails, the other built-ins passing. -/
def inpComplianceFail : PipelineInput :=
  { inpAllPass with compliance_result := .ok (prFail "compliance") }

/-- A POST_IDENTITY plugin configured with fail_action block whose check
fails on this run. -/
def postIdFailBlockPlugin : PluginRun :=
  { config := { name := "p", phase := .POST_IDENTITY, enabled := true,
                priority := 100, fail_action := "block" },
    outcome := .ok (prFail "p") }

/-- A PRE_IDENTITY plugin configured with fail_action log whose check fails
on this run. -/
def preFailLogPlugin : PluginRun :=
  { config := { name := "q", phase := .PRE_IDENTITY, enabled := true,
                priority := 5, fail_action := "log" },
    outcome := .ok (prFail "q") }

/-- A plugin in the given phase with the given fail_action whose check
fails on this run. -/
def failPlugin (n : String) (ph : PlanePhase) (fa : String) : PluginRun :=
  { config := { name := n, phase := ph, enabled := true, priority := 100,
                fail_action := fa },
    outcome := .ok (prFail n) }

/-- A passing POST_IDENTITY plugin named a. -/
def plugA : PluginRun :=
  { config := { name := "a", phase := .POST_IDENTITY, enabled := true,
                priority := 10, fail_action := "log" },
    outcome := .ok (prPass "a") }

/-- A POST_IDENTITY plugin named b whose check raises on this run. -/
def plugBoom : PluginRun :=
  { config := { name := "b", phase := .POST_IDENTITY, enabled := true,
                priority := 20, fail_action := "log" },
    outcome := .error "plugin exploded" }

/-- Session fixture for the store statements. -/
def memSd : SessionData :=
  { user_id := "u", fingerprint := "fp", trust_score := 100, last_seen := 0,
    tokens_used := 0, session_start := 0, history_summary := "", metadata := [] }

/-- Memory store holding u with a live expiry at 100 and no default TTL. -/
def memSt0 : MemStore := { store := [("u", ⟨memSd, some 100⟩)], default_ttl := none }

/-- Memory store with default TTL 3600 and an empty dict. -/
def memStD : MemStore := { store := [], default_ttl := some 3600 }

/-- Memory store holding u with no expiry and no default TTL, used by the
lost-update schedule. -/
def lostSt0 : MemStore := { store := [("u", ⟨memSd, none⟩)], default_ttl := none }

/-- The final counter after the interleaving get-A, get-B, set-A, set-B of
two concurrent increment_tokens calls with count 1 on lostSt0: both getters
read under the lock, both observe the initial counter, then both setters
write their own stale increment. -/
def lostUpdateFinal : Option Int :=
  match (lostSt0.get 0 "u").1, (lostSt0.get 0 "u").1 with
  | some d1, some d2 =>
    (assocLookup (memIncWrite (memIncWrite lostSt0 0 "u" d1 1) 0 "u" d2 1).store
      "u").map (fun e => e.data.tokens_used)
  | _, _ => none

/-- Redis record fixture with a zero counter. -/
def rRec0 : RedisRecord :=
  { user_id := "u", fingerprint := "fp", trust_score := 100, last_seen := 0,
    tokens_used := some 0, session_start := 0, history_summary := "", metadata := [] }

/-- Redis store fixture holding u with a live expiry at 200 and the default
24h TTL. -/
def rSt0 : RedisStore :=
  { keyPfx := "pygenguard:session:", default_ttl := 86400,
    store := [("pygenguard:session:u", ⟨rRec0, some 200⟩)] }

/-- Two distinct plane classes sharing the configured name dup. -/
def pcA : PlaneClass :=
  { classId := 1, config := { name := "dup", phase := .POST_INTENT, enabled := true,
                              priority := 100, fail_action := "block" } }

def pcB : PlaneClass :=
  { classId := 2, config := { name := "dup", phase := .POST_INTENT, enabled := true,
                              priority := 100, fail_action := "block" } }

/-- Registry fixture with dup registered locally as pcA. -/
def reg0 : Registry := { localReg := [("dup", pcA)], globalReg := [] }

/-- A healthy batch item: all built-ins pass, no plugins. -/
def reqOk1 : BatchReq := { trace_id := "t1", inp := inpAllPass, plugins := [] }

/-- A batch item whose identity plane raises, so its inspect call faults. -/
def reqBad : BatchReq := { trace_id := "t2", inp := inpBoom, plugins := [] }

/-- A second healthy batch item. -/
def reqOk3 : BatchReq := { trace_id := "t3", inp := inpAllPass, plugins := [] }

/-- plane_results as recorded when the PRE_IDENTITY phase completes without
a failing plugin result. -/
def dictAfterPre (plugins : List PluginRun) : List (String × PlaneResult) :=
  recordOnly [] (phaseOutcomes .PRE_IDENTITY plugins)

/-- plane_results at the moment the economics verdict is taken, after the
identity, intent and context planes passed. -/
def dictAtEconomics (plugins : List PluginRun) (ir it cr er : PlaneResult) :
    List (String × PlaneResult) :=
  assocInsert (recordOnly (assocInsert (recordOnly (assocInsert (recordOnly
    (assocInsert (dictAfterPre plugins) "identity" ir)
    (phaseOutcomes .POST_IDENTITY plugins)) "intent" it)
    (phaseOutcomes .POST_INTENT plugins)) "context" cr)
    (phaseOutcomes .POST_CONTEXT plugins)) "economics" er

/-- Final plane_results of a run in which the four gating built-ins passed,
with the given compliance result recorded. -/
def dictFinal (plugins : List PluginRun) (ir it cr er cp : PlaneResult) :
    List (String × PlaneResult) :=
  recordOnly (assocInsert (recordOnly (dictAtEconomics plugins ir it cr er)
    (phaseOutcomes .POST_ECONOMICS plugins)) "compliance" cp)
    (phaseOutcomes .POST_COMPLIANCE plugins)

theorem allOkPass_cons_ok (pr : PlaneResult) (rest : List (Except String PlaneResult)) :
    allOkPass (.ok pr :: rest) = (pr.passed && allOkPass rest) := by
  simp [allOkPass, okResults, List.all_cons]

theorem allOkPass_cons_error (e : String) (rest : List (Except String PlaneResult)) :
    allOkPass (.error e :: rest) = allOkPass rest := rfl

theorem noName_cons_ok (pr : PlaneResult) (rest : List (Except String PlaneResult))
    (k : String) :
    noName (.ok pr :: rest) k = (pr.plane_name != k && noName rest k) := by
  simp [noName, okResults, List.all_cons]

theorem noName_cons_error (e : String) (rest : List (Except String PlaneResult))
    (k : String) : noName (.error e :: rest) k = noName rest k := rfl

theorem assocLookup_insert_self {α : Type} (d : List (String × α)) (k : String) (v : α) :
    assocLookup (assocInsert d k v) k = some v := by
  induction d with
  | nil => simp [assocInsert, assocLookup]
  | cons p rest ih =>
    obtain ⟨k', v'⟩ := p
    by_cases h : k' = k
    · simp [assocInsert, assocLookup, h]
    · simp [assocInsert, assocLookup, h, ih]

theorem assocLookup_insert_of_ne {α : Type} (d : List (String × α)) (k : String) (v : α)
    (k' : String) (h : k ≠ k') :
    assocLookup (assocInsert d k v) k' = assocLookup d k' := by
  induction d with
  | nil => simp [assocInsert, assocLookup, h]
  | cons p rest ih =>
    obtain ⟨k₀, v₀⟩ := p
    by_cases h₀ : k₀ = k
    · subst h₀
      simp [assocInsert, assocLookup, h]
    · simp only [assocInsert, if_neg h₀]
      by_cases h₁ : k₀ = k'
      · simp [assocLookup, h₁]
      · simp [assocLookup, h₁, ih]

theorem recordOnly_append (d : List (String × PlaneResult))
    (a b : List (Except String PlaneResult)) :
    recordOnly d (a ++ b) = recordOnly (recordOnly d a) b := by
  induction a generalizing d with
  | nil => rfl
  | cons x rest ih => cases x <;> simp [recordOnly, ih]

theorem recordOnly_lookup_noName (d : List (String × PlaneResult))
    (l : List (Except String PlaneResult)) (k : String) (h : noName l k = true) :
    assocLookup (recordOnly d l) k = assocLookup d k := by
  induction l generalizing d with
  | nil => rfl
  | cons x rest ih =>
    cases x with
    | error e =>
      rw [noName_cons_error] at h
      simpa [recordOnly] using ih d h
    | ok pr =>
      rw [noName_cons_ok, Bool.and_eq_true] at h
      have hne : pr.plane_name ≠ k := by
        simpa using h.1
      simp only [recordOnly]
      rw [ih _ h.2, assocLookup_insert_of_ne _ _ _ _ hne]

theorem runPreIdentity_allPass (tid : String) (l : List (Except String PlaneResult))
    (d : List (String × PlaneResult)) (h : allOkPass l = true) :
    runPreIdentity tid l d = .inl (recordOnly d l) := by
  induction l generalizing d with
  | nil => rfl
  | cons x rest ih =>
    cases x with
    | error e =>
      rw [allOkPass_cons_error] at h
      simpa [runPreIdentity, recordOnly] using ih d h
    | ok pr =>
      rw [allOkPass_cons_ok, Bool.and_eq_true] at h
      simp [runPreIdentity, recordOnly, h.1, ih _ h.2]

theorem runPreIdentity_firstFail (tid : String) (l : List (Except String PlaneResult))
    (d : List (String × PlaneResult)) (h : allOkPass l = false) :
    ∃ dec, runPreIdentity tid l d = .inr dec ∧
      dec.action = .BLOCK ∧ dec.allowed = false := by
  induction l generalizing d with
  | nil => simp [allOkPass, okResults] at h
  | cons x rest ih =>
    cases x with
    | error e =>
      rw [allOkPass_cons_error] at h
      simpa [runPreIdentity] using ih d h
    | ok pr =>
      rw [allOkPass_cons_ok] at h
      by_cases hp : pr.passed
      · have hr : allOkPass rest = false := by simpa [hp] using h
        simpa [runPreIdentity, hp] using ih _ hr
      · rw [Bool.not_eq_true] at hp
        refine ⟨createBlock tid (assocInsert d pr.plane_name pr)
          ("Pre-identity plugin failed: " ++ pr.details) "Request validation failed.",
          ?_, rfl, rfl⟩
        simp [runPreIdentity, hp]

theorem gatherAll_allOk (l : List (Except String Decision))
    (h : ∀ x ∈ l, isOkE x = true) :
    ∃ ds, gatherAll l = .ok ds ∧ ds.length = l.length ∧
      ∀ i, (h1 : i < l.length) → (h2 : i < ds.length) → l[i] = .ok ds[i] := by
  induction l with
  | nil =>
    exact ⟨[], rfl, rfl, fun i h1 _ => absurd h1 (Nat.not_lt_zero i)⟩
  | cons x rest ih =>
    obtain ⟨ds, hds, hlen, hidx⟩ := ih (fun y hy => h y (List.mem_cons_of_mem x hy))
    cases x with
    | error e => exact absurd (h _ (List.mem_cons_self _ _)) (by simp [isOkE])
    | ok dec =>
      refine ⟨dec :: ds, ?_, ?_, ?_⟩
      · simp [gatherAll, hds]
      · simp [hlen]
      · intro i h1 h2
        cases i with
        | zero => rfl
        | succ n =>
          simp only [List.getElem_cons_succ]
          exact hidx n (Nat.lt_of_succ_lt_succ h1) (Nat.lt_of_succ_lt_succ h2)

theorem gatherAll_error (pre : List (Except String Decision)) (e : String)
    (post : List (Except String Decision))
    (h : ∀ x ∈ pre, isOkE x = true) :
    gatherAll (pre ++ .error e :: post) = .error e := by
  induction pre with
  | nil => rfl
  | cons x rest ih =>
    cases x with
    | error e' => exact absurd (h _ (List.mem_cons_self _ _)) (by simp [isOkE])
    | ok dec =>
      have hr := ih (fun y hy => h y (List.mem_cons_of_mem _ hy))
      simp [gatherAll, hr]

theorem inspect_identity_fail (tid : String) (plugins : List PluginRun)
    (ir : PlaneResult) (itr ctr ecr cpr : Except String PlaneResult)
    (hpre : allOkPass (phaseOutcomes .PRE_IDENTITY plugins) = true)
    (hp : ir.passed = false) :
    inspect tid ⟨.ok ir, itr, ctr, ecr, cpr⟩ plugins =
      .ok (createBlock tid (assocInsert (dictAfterPre plugins) "identity" ir)
        ("Identity check failed: " ++ ir.details) "Session verification required.") := by
  unfold inspect
  rw [runPreIdentity_allPass _ _ _ hpre]
  simp [hp, dictAfterPre]

theorem inspect_economics_fail (tid : String) (plugins : List PluginRun)
    (ir it cr er : PlaneResult) (cpr : Except String PlaneResult)
    (hpre : allOkPass (phaseOutcomes .PRE_IDENTITY plugins) = true)
    (h1 : ir.passed = true) (h2 : it.passed = true) (h3 : cr.passed = true)
    (h4 : er.passed = false) :
    inspect tid ⟨.ok ir, .ok it, .ok cr, .ok er, cpr⟩ plugins =
      .ok (createDegrade tid (dictAtEconomics plugins ir it cr er)
        ("Rate limiting applied: " ++ er.details)) := by
  unfold inspect
  rw [runPreIdentity_allPass _ _ _ hpre]
  simp [h1, h2, h3, h4, dictAtEconomics, dictAfterPre]

theorem inspect_all_pass (tid : String) (plugins : List PluginRun)
    (ir it cr er cp : PlaneResult)
    (hpre : allOkPass (phaseOutcomes .PRE_IDENTITY plugins) = true)
    (h1 : ir.passed = true) (h2 : it.passed = true) (h3 : cr.passed = true)
    (h4 : er.passed = true) :
    inspect tid ⟨.ok ir, .ok it, .ok cr, .ok er, .ok cp⟩ plugins =
      .ok (createAllow tid (dictFinal plugins ir it cr er cp)
        "All security planes passed.") := by
  unfold inspect
  rw [runPreIdentity_allPass _ _ _ hpre]
  simp [h1, h2, h3, h4, dictFinal, dictAtEconomics, dictAfterPre]

/-- C1: failure policy of the built-in checks, on any evaluation whose
PRE_IDENTITY plugin results all pass: (i) a failing identity check yields a
Decision with action BLOCK and allowed false; (ii) a failing economics check
with identity, intent and context all passing yields action DEGRADE, never
BLOCK; (iii) with the four other built-ins passing, a failing compliance
check alone leaves the action ALLOW, and the compliance result is recorded
in plane_results (no later plugin result reusing the name). -/
theorem builtin_failure_policy (tid : String) (plugins : List PluginRun)
    (hpre : allOkPass (phaseOutcomes .PRE_IDENTITY plugins) = true) :
    (∀ (ir : PlaneResult) (itr ctr ecr cpr : Except String PlaneResult),
      ir.passed = false →
      ∃ dec, inspect tid ⟨.ok ir, itr, ctr, ecr, cpr⟩ plugins = .ok dec ∧
        dec.action = .BLOCK ∧ dec.allowed = false) ∧
    (∀ (ir it cr er : PlaneResult) (cpr : Except String PlaneResult),
      ir.passed = true → it.passed = true → cr.passed = true → er.passed = false →
      ∃ dec, inspect tid ⟨.ok ir, .ok it, .ok cr, .ok er, cpr⟩ plugins = .ok dec ∧
        dec.action = .DEGRADE ∧ dec.action ≠ .BLOCK) ∧
    (∀ (ir it cr er cp : PlaneResult),
      ir.passed = true → it.passed = true → cr.passed = true → er.passed = true →
      cp.passed = false →
      noName (phaseOutcomes .POST_COMPLIANCE plugins) "compliance" = true →
      ∃ dec, inspect tid ⟨.ok ir, .ok it, .ok cr, .ok er, .ok cp⟩ plugins = .ok dec ∧
        dec.action = .ALLOW ∧ dec.allowed = true ∧
        assocLookup dec.plane_results "compliance" = some cp) := by
  refine ⟨?_, ?_, ?_⟩
  · intro ir itr ctr ecr cpr hp
    exact ⟨_, inspect_identity_fail tid plugins ir itr ctr ecr cpr hpre hp, rfl, rfl⟩
  · intro ir it cr er cpr h1 h2 h3 h4
    exact ⟨_, inspect_economics_fail tid plugins ir it cr er cpr hpre h1 h2 h3 h4,
      rfl, fun h => GuardAction.noConfusion h⟩
  · intro ir it cr er cp h1 h2 h3 h4 h5 hnn
    refine ⟨_, inspect_all_pass tid plugins ir it cr er cp hpre h1 h2 h3 h4, rfl, rfl, ?_⟩
    show assocLookup (dictFinal plugins ir it cr er cp) "compliance" = some cp
    rw [dictFinal, recordOnly_lookup_noName _ _ _ hnn, assocLookup_insert_self]

/-- Witness for builtin_failure_policy: the three failure-policy branches at
concrete runs with no plugins registered. -/
theorem builtin_failure_policy_witness :
    (∃ dec, inspect "t" inpIdentityFail [] = .ok dec ∧
      dec.action = .BLOCK ∧ dec.allowed = false) ∧
    (∃ dec, inspect "t" inpEconomicsFail [] = .ok dec ∧
      dec.action = .DEGRADE ∧ dec.action ≠ .BLOCK) ∧
    (∃ dec, inspect "t" inpComplianceFail [] = .ok dec ∧
      dec.action = .ALLOW ∧ dec.allowed = true ∧
      assocLookup dec.plane_results "compliance" = some (prFail "compliance")) :=
  ⟨(builtin_failure_policy "t" [] rfl).1 (prFail "identity")
      (.ok (prPass "intent")) (.ok (prPass "context")) (.ok (prPass "economics"))
      (.ok (prPass "compliance")) rfl,
   (builtin_failure_policy "t" [] rfl).2.1 (prPass "identity") (prPass "intent")
      (prPass "context") (prFail "economics") (.ok (prPass "compliance")) rfl rfl rfl rfl,
   (builtin_failure_policy "t" [] rfl).2.2 (prPass "identity") (prPass "intent")
      (prPass "context") (prPass "economics") (prFail "compliance") rfl rfl rfl rfl rfl rfl⟩

/-- C2 counterexample: a POST_IDENTITY plugin configured with fail_action
block whose check fails does not yield a BLOCK decision: on a run where all
built-ins pass, the pipeline merely records the failing result and returns
ALLOW, so the claimed fail_action mapping is violated. -/
theorem plugin_fail_action_counterexample :
    (inspect "t" inpAllPass [postIdFailBlockPlugin]).map Decision.action =
      .ok .ALLOW ∧
    (Except.ok GuardAction.ALLOW : Except String GuardAction) ≠ .ok .BLOCK :=
  ⟨rfl, fun h => GuardAction.noConfusion (Except.ok.inj h)⟩

/-- C2 amended: the async pipeline never consults fail_action; a failing
plugin result is handled by its phase instead: (i) whenever some
PRE_IDENTITY plugin result fails, the decision is BLOCK with allowed false,
whatever fail_action values are configured; (ii) on a run where every
built-in passes, a failing plugin result in the fan-out of any POST_* phase
(POST_IDENTITY, POST_INTENT, POST_CONTEXT, POST_ECONOMICS or
POST_COMPLIANCE) is only recorded in plane_results (still present when no
later result reuses its name) and the pipeline continues to an ALLOW
decision, whatever its fail_action. -/
theorem plugin_fail_action_amended (tid : String) (plugins : List PluginRun) :
    (∀ (inp : PipelineInput),
      allOkPass (phaseOutcomes .PRE_IDENTITY plugins) = false →
      ∃ dec, inspect tid inp plugins = .ok dec ∧
        dec.action = .BLOCK ∧ dec.allowed = false) ∧
    (∀ (ir it cr er cp pr : PlaneResult)
       (l₁ l₂ : List (Except String PlaneResult)),
      allOkPass (phaseOutcomes .PRE_IDENTITY plugins) = true →
      ir.passed = true → it.passed = true → cr.passed = true → er.passed = true →
      pr.passed = false →
      noName l₂ pr.plane_name = true →
      ((phaseOutcomes .POST_IDENTITY plugins = l₁ ++ .ok pr :: l₂ ∧
        noName (phaseOutcomes .POST_INTENT plugins) pr.plane_name = true ∧
        noName (phaseOutcomes .POST_CONTEXT plugins) pr.plane_name = true ∧
        noName (phaseOutcomes .POST_ECONOMICS plugins) pr.plane_name = true ∧
        noName (phaseOutcomes .POST_COMPLIANCE plugins) pr.plane_name = true ∧
        pr.plane_name ≠ "intent" ∧ pr.plane_name ≠ "context" ∧
        pr.plane_name ≠ "economics" ∧ pr.plane_name ≠ "compliance") ∨
       (phaseOutcomes .POST_INTENT plugins = l₁ ++ .ok pr :: l₂ ∧
        noName (phaseOutcomes .POST_CONTEXT plugins) pr.plane_name = true ∧
        noName (phaseOutcomes .POST_ECONOMICS plugins) pr.plane_name = true ∧
        noName (phaseOutcomes .POST_COMPLIANCE plugins) pr.plane_name = true ∧
        pr.plane_name ≠ "context" ∧ pr.plane_name ≠ "economics" ∧
        pr.plane_name ≠ "compliance") ∨
       (phaseOutcomes .POST_CONTEXT plugins = l₁ ++ .ok pr :: l₂ ∧
        noName (phaseOutcomes .POST_ECONOMICS plugins) pr.plane_name = true ∧
        noName (phaseOutcomes .POST_COMPLIANCE plugins) pr.plane_name = true ∧
        pr.plane_name ≠ "economics" ∧ pr.plane_name ≠ "compliance") ∨
       (phaseOutcomes .POST_ECONOMICS plugins = l₁ ++ .ok pr :: l₂ ∧
        noName (phaseOutcomes .POST_COMPLIANCE plugins) pr.plane_name = true ∧
        pr.plane_name ≠ "compliance") ∨
       phaseOutcomes .POST_COMPLIANCE plugins = l₁ ++ .ok pr :: l₂) →
      ∃ dec, inspect tid ⟨.ok ir, .ok it, .ok cr, .ok er, .ok cp⟩ plugins = .ok dec ∧
        dec.action = .ALLOW ∧ dec.allowed = true ∧
        assocLookup dec.plane_results pr.plane_name = some pr) := by
  constructor
  · intro inp hfail
    obtain ⟨dec, hrun, hact, hall⟩ := runPreIdentity_firstFail tid _ [] hfail
    refine ⟨dec, ?_, hact, hall⟩
    unfold inspect
    rw [hrun]
  · intro ir it cr er cp pr l₁ l₂ hpre h1 h2 h3 h4 hprf hnn2 hcase
    refine ⟨_, inspect_all_pass tid plugins ir it cr er cp hpre h1 h2 h3 h4,
      rfl, rfl, ?_⟩
    show assocLookup (dictFinal plugins ir it cr er cp) pr.plane_name = some pr
    rcases hcase with
      ⟨hdec, hnnI, hnnC, hnnE, hnnP, hni, hnc, hne, hncp⟩ |
      ⟨hdec, hnnC, hnnE, hnnP, hnc, hne, hncp⟩ |
      ⟨hdec, hnnE, hnnP, hne, hncp⟩ |
      ⟨hdec, hnnP, hncp⟩ | hdec
    · rw [dictFinal, recordOnly_lookup_noName _ _ _ hnnP,
        assocLookup_insert_of_ne _ _ _ _ (Ne.symm hncp),
        recordOnly_lookup_noName _ _ _ hnnE, dictAtEconomics,
        assocLookup_insert_of_ne _ _ _ _ (Ne.symm hne),
        recordOnly_lookup_noName _ _ _ hnnC,
        assocLookup_insert_of_ne _ _ _ _ (Ne.symm hnc),
        recordOnly_lookup_noName _ _ _ hnnI,
        assocLookup_insert_of_ne _ _ _ _ (Ne.symm hni),
        hdec, recordOnly_append]
      show assocLookup (recordOnly (assocInsert _ pr.plane_name pr) l₂)
        pr.plane_name = some pr
      rw [recordOnly_lookup_noName _ _ _ hnn2, assocLookup_insert_self]
    · rw [dictFinal, recordOnly_lookup_noName _ _ _ hnnP,
        assocLookup_insert_of_ne _ _ _ _ (Ne.symm hncp),
        recordOnly_lookup_noName _ _ _ hnnE, dictAtEconomics,
        assocLookup_insert_of_ne _ _ _ _ (Ne.symm hne),
        recordOnly_lookup_noName _ _ _ hnnC,
        assocLookup_insert_of_ne _ _ _ _ (Ne.symm hnc),
        hdec, recordOnly_append]
      show assocLookup (recordOnly (assocInsert _ pr.plane_name pr) l₂)
        pr.plane_name = some pr
      rw [recordOnly_lookup_noName _ _ _ hnn2, assocLookup_insert_self]
    · rw [dictFinal, recordOnly_lookup_noName _ _ _ hnnP,
        assocLookup_insert_of_ne _ _ _ _ (Ne.symm hncp),
        recordOnly_lookup_noName _ _ _ hnnE, dictAtEconomics,
        assocLookup_insert_of_ne _ _ _ _ (Ne.symm hne),
        hdec, recordOnly_append]
      show assocLookup (recordOnly (assocInsert _ pr.plane_name pr) l₂)
        pr.plane_name = some pr
      rw [recordOnly_lookup_noName _ _ _ hnn2, assocLookup_insert_self]
    · rw [dictFinal, recordOnly_lookup_noName _ _ _ hnnP,
        assocLookup_insert_of_ne _ _ _ _ (Ne.symm hncp),
        hdec, recordOnly_append]
      show assocLookup (recordOnly (assocInsert _ pr.plane_name pr) l₂)
        pr.plane_name = some pr
      rw [recordOnly_lookup_noName _ _ _ hnn2, assocLookup_insert_self]
    · rw [dictFinal, hdec, recordOnly_append]
      show assocLookup (recordOnly (assocInsert _ pr.plane_name pr) l₂)
        pr.plane_name = some pr
      rw [recordOnly_lookup_noName _ _ _ hnn2, assocLookup_insert_self]

/-- Witness for plugin_fail_action_amended: a failing PRE_IDENTITY plugin
with fail_action log still blocks, and a failing plugin in each of the five
POST_* phases, under varying fail_action values, is only recorded under an
ALLOW decision. -/
theorem plugin_fail_action_amended_witness :
    (∃ dec, inspect "t" inpAllPass [preFailLogPlugin] = .ok dec ∧
      dec.action = .BLOCK ∧ dec.allowed = false) ∧
    (∃ dec, inspect "t" inpAllPass [failPlugin "p" .POST_IDENTITY "block"] = .ok dec ∧
      dec.action = .ALLOW ∧ dec.allowed = true ∧
      assocLookup dec.plane_results "p" = some (prFail "p")) ∧
    (∃ dec, inspect "t" inpAllPass [failPlugin "p" .POST_INTENT "degrade"] = .ok dec ∧
      dec.action = .ALLOW ∧ dec.allowed = true ∧
      assocLookup dec.plane_results "p" = some (prFail "p")) ∧
    (∃ dec, inspect "t" inpAllPass [failPlugin "p" .POST_CONTEXT "block"] = .ok dec ∧
      dec.action = .ALLOW ∧ dec.allowed = true ∧
      assocLookup dec.plane_results "p" = some (prFail "p")) ∧
    (∃ dec, inspect "t" inpAllPass [failPlugin "p" .POST_ECONOMICS "block"] = .ok dec ∧
      dec.action = .ALLOW ∧ dec.allowed = true ∧
      assocLookup dec.plane_results "p" = some (prFail "p")) ∧
    (∃ dec, inspect "t" inpAllPass [failPlugin "p" .POST_COMPLIANCE "block"] = .ok dec ∧
      dec.action = .ALLOW ∧ dec.allowed = true ∧
      assocLookup dec.plane_results "p" = some (prFail "p")) :=
  ⟨(plugin_fail_action_amended "t" [preFailLogPlugin]).1 inpAllPass rfl,
   (plugin_fail_action_amended "t" [failPlugin "p" .POST_IDENTITY "block"]).2
     (prPass "identity") (prPass "intent") (prPass "context") (prPass "economics")
     (prPass "compliance") (prFail "p") [] [] rfl rfl rfl rfl rfl rfl rfl
     (Or.inl ⟨rfl, rfl, rfl, rfl, rfl, by decide, by decide, by decide, by decide⟩),
   (plugin_fail_action_amended "t" [failPlugin "p" .POST_INTENT "degrade"]).2
     (prPass "identity") (prPass "intent") (prPass "context") (prPass "economics")
     (prPass "compliance") (prFail "p") [] [] rfl rfl rfl rfl rfl rfl rfl
     (Or.inr (Or.inl ⟨rfl, rfl, rfl, rfl, by decide, by decide, by decide⟩)),
   (plugin_fail_action_amended "t" [failPlugin "p" .POST_CONTEXT "block"]).2
     (prPass "identity") (prPass "intent") (prPass "context") (prPass "economics")
     (prPass "compliance") (prFail "p") [] [] rfl rfl rfl rfl rfl rfl rfl
     (Or.inr (Or.inr (Or.inl ⟨rfl, rfl, rfl, by decide, by decide⟩))),
   (plugin_fail_action_amended "t" [failPlugin "p" .POST_ECONOMICS "block"]).2
     (prPass "identity") (prPass "intent") (prPass "context") (prPass "economics")
     (prPass "compliance") (prFail "p") [] [] rfl rfl rfl rfl rfl rfl rfl
     (Or.inr (Or.inr (Or.inr (Or.inl ⟨rfl, rfl, by decide⟩)))),
   (plugin_fail_action_amended "t" [failPlugin "p" .POST_COMPLIANCE "block"]).2
     (prPass "identity") (prPass "intent") (prPass "context") (prPass "economics")
     (prPass "compliance") (prFail "p") [] [] rfl rfl rfl rfl rfl rfl rfl
     (Or.inr (Or.inr (Or.inr (Or.inr rfl))))⟩

/-- C6 counterexample: with sibling plugin a passing and plugin b raising in
the same POST_IDENTITY fan-out, the run completes with ALLOW and the sibling
result recorded, but no failed entry for b appears in plane_results: the
captured fault is dropped silently instead of being surfaced as that
plugin's failed result. -/
theorem phase_fault_counterexample :
    (inspect "t" inpAllPass [plugA, plugBoom]).map Decision.action = .ok .ALLOW ∧
    (inspect "t" inpAllPass [plugA, plugBoom]).map
      (fun dec => assocLookup dec.plane_results "a") = .ok (some (prPass "a")) ∧
    (inspect "t" inpAllPass [plugA, plugBoom]).map
      (fun dec => assocLookup dec.plane_results "b") = .ok none :=
  ⟨rfl, rfl, rfl⟩

/-- C6 amended: a plugin fault captured in the same-phase fan-out is dropped
silently: processing the gathered phase results with the fault present is
identical to processing them without that plugin, for both the PRE_IDENTITY
loop and the record-only loops, so sibling plugins and the rest of the
pipeline are unaffected, but no failed entry for the faulting plugin is ever
recorded in plane_results. -/
theorem phase_fault_amended (tid : String) (e : String)
    (l₁ l₂ : List (Except String PlaneResult)) (d : List (String × PlaneResult)) :
    recordOnly d (l₁ ++ .error e :: l₂) = recordOnly d (l₁ ++ l₂) ∧
    runPreIdentity tid (l₁ ++ .error e :: l₂) d = runPreIdentity tid (l₁ ++ l₂) d := by
  induction l₁ generalizing d with
  | nil => exact ⟨rfl, rfl⟩
  | cons x rest ih =>
    cases x with
    | error e' => simpa [recordOnly, runPreIdentity] using ih d
    | ok pr =>
      constructor
      · simpa [recordOnly] using (ih (assocInsert d pr.plane_name pr)).1
      · by_cases hp : pr.passed
        · simpa [runPreIdentity, hp] using (ih (assocInsert d pr.plane_name pr)).2
        · simp [runPreIdentity, hp]

/-- C5 counterexample: in a 3-item batch whose middle item's pipeline raises
(a built-in plane fault escapes its inspect), inspect_batch propagates the
exception: no list of Decisions is returned at all, removing the normal
Decisions of the two healthy siblings, each of which succeeds on its own. -/
theorem batch_isolation_counterexample :
    inspectBatch [reqOk1, reqBad, reqOk3] = .error "boom" ∧
    isOkE (inspect "t1" inpAllPass []) = true ∧
    isOkE (inspect "t3" inpAllPass []) = true :=
  ⟨rfl, rfl, rfl⟩

/-- C5 amended: when every request's pipeline completes without an unhandled
fault, inspect_batch returns exactly one Decision per request, in input
order; but a fault escaping one request's inspect propagates out of
inspect_batch, discarding the siblings' Decisions instead of leaving them
unaffected. -/
theorem batch_order_amended (reqs : List BatchReq) :
    ((∀ req ∈ reqs, isOkE (inspect req.trace_id req.inp req.plugins) = true) →
      ∃ ds, inspectBatch reqs = .ok ds ∧ ds.length = reqs.length ∧
        ∀ i, (h1 : i < reqs.length) → (h2 : i < ds.length) →
          inspect reqs[i].trace_id reqs[i].inp reqs[i].plugins = .ok ds[i]) ∧
    (∀ (pre post : List BatchReq) (bad : BatchReq) (e : String),
      reqs = pre ++ bad :: post →
      (∀ r ∈ pre, isOkE (inspect r.trace_id r.inp r.plugins) = true) →
      inspect bad.trace_id bad.inp bad.plugins = .error e →
      inspectBatch reqs = .error e) := by
  constructor
  · intro hall
    obtain ⟨ds, hds, hlen, hidx⟩ := gatherAll_allOk
      (reqs.map (fun r => inspect r.trace_id r.inp r.plugins))
      (by
        intro x hx
        obtain ⟨r, hr, rfl⟩ := List.mem_map.mp hx
        exact hall r hr)
    refine ⟨ds, hds, by simpa using hlen, ?_⟩
    intro i h1 h2
    have h1' : i < (reqs.map (fun r => inspect r.trace_id r.inp r.plugins)).length := by
      simpa using h1
    have hx := hidx i h1' h2
    rw [List.getElem_map] at hx
    exact hx
  · intro pre post bad e hreq hpre hbad
    subst hreq
    unfold inspectBatch
    rw [List.map_append, List.map_cons, hbad]
    exact gatherAll_error _ e _ (by
      intro x hx
      obtain ⟨r, hr, rfl⟩ := List.mem_map.mp hx
      exact hpre r hr)

/-- Witness for batch_order_amended: a concrete 2-item healthy batch yields
exactly two Decisions in order. -/
theorem batch_order_amended_witness :
    ∃ ds, inspectBatch [reqOk1, reqOk3] = .ok ds ∧
      ds.length = ([reqOk1, reqOk3] : List BatchReq).length ∧
      ∀ i, (h1 : i < ([reqOk1, reqOk3] : List BatchReq).length) → (h2 : i < ds.length) →
        inspect ([reqOk1, reqOk3] : List BatchReq)[i].trace_id
          ([reqOk1, reqOk3] : List BatchReq)[i].inp
          ([reqOk1, reqOk3] : List BatchReq)[i].plugins = .ok ds[i] :=
  (batch_order_amended [reqOk1, reqOk3]).1 (by decide)

theorem mem_get_absent (mst : MemStore) (now : Int) (uid : String)
    (hlook : assocLookup mst.store uid = none) :
    mst.get now uid = (none, mst) := by
  unfold MemStore.get
  rw [hlook]

theorem mem_get_live (mst : MemStore) (now : Int) (uid : String) (data : SessionData)
    (expiry : Option Int) (hlook : assocLookup mst.store uid = some ⟨data, expiry⟩)
    (hnexp : memIsExpired now expiry = false) :
    mst.get now uid = (some data, mst) := by
  unfold MemStore.get
  rw [hlook]
  simp [hnexp]

theorem redis_get_live (rst : RedisStore) (now : Int) (k : String) (r : RedisRecord)
    (ex : Option Int) (hlook : assocLookup rst.store k = some ⟨r, ex⟩)
    (hlive : redisLive now ex = true) :
    redisGet rst now k = some r := by
  unfold redisGet
  rw [hlook]
  simp [hlive]

theorem redis_updateTrust_live (rst : RedisStore) (now : Int) (uid : String)
    (score : Int) (r : RedisRecord) (ex : Option Int)
    (hlook : assocLookup rst.store (rst.key uid) = some ⟨r, ex⟩)
    (hlive : redisLive now ex = true) :
    rst.updateTrust now uid score =
      (true, rst.withEntry (rst.key uid)
        ⟨{ r with trust_score := score, last_seen := now }, ex⟩) := by
  have hget := redis_get_live rst now (rst.key uid) r ex hlook hlive
  cases ex with
  | none =>
    have httl : redisTTL rst now (rst.key uid) = -1 := by
      unfold redisTTL
      rw [hlook]
    have hneg : ¬ ((-1 : Int) > 0) := by norm_num
    simp [RedisStore.updateTrust, RedisStore.withEntry, hget, httl, hneg]
  | some e =>
    have he : now < e := by simpa [redisLive] using hlive
    have httl : redisTTL rst now (rst.key uid) = e - now := by
      unfold redisTTL
      rw [hlook]
    have hpos : (0 : Int) < e - now := by omega
    have harith : now + (e - now) = e := by omega
    simp [RedisStore.updateTrust, RedisStore.withEntry, hget, httl, hpos, harith]

theorem redis_incrementTokens_live (rst : RedisStore) (now : Int) (uid : String)
    (count : Int) (r : RedisRecord) (ex : Option Int)
    (hlook : assocLookup rst.store (rst.key uid) = some ⟨r, ex⟩)
    (hlive : redisLive now ex = true) :
    rst.incrementTokens now uid count =
      (decide (r.tokens_used.getD 0 + count > 0),
       rst.withEntry (rst.key uid)
        ⟨{ r with tokens_used := some (r.tokens_used.getD 0 + count), last_seen := now }, ex⟩) := by
  have hget := redis_get_live rst now (rst.key uid) r ex hlook hlive
  cases ex with
  | none =>
    have httl : redisTTL rst now (rst.key uid) = -1 := by
      unfold redisTTL
      rw [hlook]
    have hneg : ¬ ((-1 : Int) > 0) := by norm_num
    simp [RedisStore.incrementTokens, RedisStore.withEntry, hget, httl, hneg]
  | some e =>
    have he : now < e := by simpa [redisLive] using hlive
    have httl : redisTTL rst now (rst.key uid) = e - now := by
      unfold redisTTL
      rw [hlook]
    have hpos : (0 : Int) < e - now := by omega
    have harith : now + (e - now) = e := by omega
    simp [RedisStore.incrementTokens, RedisStore.withEntry, hget, httl, hpos, harith]

theorem redis_get_absent_updates (rst : RedisStore) (now : Int) (uid : String)
    (score count : Int) (h : redisGet rst now (rst.key uid) = none) :
    rst.updateTrust now uid score = (false, rst) ∧
    rst.incrementTokens now uid count = (false, rst) := by
  constructor
  · simp [RedisStore.updateTrust, h]
  · simp [RedisStore.incrementTokens, h]

/-- C3 counterexample: in the in-memory store an entry with remaining TTL
(absolute expiry 100, current time 50) does not keep its expiry when
update_trust rewrites it: the inherited implementation re-sets the entry
with no ttl argument, so the entry ends with no expiry at all instead of the
preserved expiry 100. -/
theorem store_atomic_update_counterexample :
    (memSt0.updateTrust 50 "u" 42).1 = true ∧
    assocLookup (memSt0.updateTrust 50 "u" 42).2.store "u" =
      some ⟨{ memSd with trust_score := 42, last_seen := 50 }, none⟩ ∧
    (some 100 : Option Int) ≠ none :=
  ⟨rfl, rfl, by decide⟩

/-- C3 amended: for both stores, update_trust and increment_tokens no-op and
return failure on an absent key; on a live key both mutate the target field
(increment adds to the existing counter, the Redis script defaulting a
missing counter to 0) and last_seen; the Redis Lua path preserves the key's
expiry, while the in-memory store re-sets the entry under the store's
default TTL, discarding the previous expiry (no expiry at all when no usable
default is configured). -/
theorem store_atomic_update_amended
    (mst : MemStore) (rst : RedisStore) (now : Int) (uid : String)
    (score count : Int) :
    (assocLookup mst.store uid = none →
      mst.updateTrust now uid score = (false, mst) ∧
      mst.incrementTokens now uid count = (false, mst)) ∧
    (∀ data expiry, assocLookup mst.store uid = some ⟨data, expiry⟩ →
      memIsExpired now expiry = false →
      mst.updateTrust now uid score =
        (true, mst.withEntry uid
          ⟨{ data with trust_score := score, last_seen := now },
           memExpiryOf now mst.default_ttl⟩) ∧
      mst.incrementTokens now uid count =
        (true, mst.withEntry uid
          ⟨{ data with tokens_used := data.tokens_used + count, last_seen := now },
           memExpiryOf now mst.default_ttl⟩)) ∧
    (redisGet rst now (rst.key uid) = none →
      rst.updateTrust now uid score = (false, rst) ∧
      rst.incrementTokens now uid count = (false, rst)) ∧
    (∀ r ex, assocLookup rst.store (rst.key uid) = some ⟨r, ex⟩ →
      redisLive now ex = true →
      rst.updateTrust now uid score =
        (true, rst.withEntry (rst.key uid)
          ⟨{ r with trust_score := score, last_seen := now }, ex⟩) ∧
      (rst.incrementTokens now uid count).2 =
        rst.withEntry (rst.key uid)
          ⟨{ r with tokens_used := some (r.tokens_used.getD 0 + count), last_seen := now }, ex⟩) := by
  refine ⟨?_, ?_, ?_, ?_⟩
  · intro h
    have hget := mem_get_absent mst now uid h
    constructor
    · simp [MemStore.updateTrust, hget]
    · simp [MemStore.incrementTokens, hget]
  · intro data expiry hlook hnexp
    have hget := mem_get_live mst now uid data expiry hlook hnexp
    constructor
    · simp [MemStore.updateTrust, hget, MemStore.set, MemStore.withEntry]
    · simp [MemStore.incrementTokens, hget, MemStore.set, MemStore.withEntry]
  · intro h
    exact redis_get_absent_updates rst now uid score count h
  · intro r ex hlook hlive
    refine ⟨redis_updateTrust_live rst now uid score r ex hlook hlive, ?_⟩
    rw [redis_incrementTokens_live rst now uid count r ex hlook hlive]

/-- Witness for store_atomic_update_amended at concrete stores: absent key
v, live key u for both the in-memory and the Redis store. -/
theorem store_atomic_update_amended_witness :
    (memSt0.updateTrust 50 "v" 42 = (false, memSt0) ∧
      memSt0.incrementTokens 50 "v" 3 = (false, memSt0)) ∧
    (memSt0.updateTrust 50 "u" 42 =
        (true, memSt0.withEntry "u"
          ⟨{ memSd with trust_score := 42, last_seen := 50 },
           memExpiryOf 50 memSt0.default_ttl⟩) ∧
      memSt0.incrementTokens 50 "u" 3 =
        (true, memSt0.withEntry "u"
          ⟨{ memSd with tokens_used := memSd.tokens_used + 3, last_seen := 50 },
           memExpiryOf 50 memSt0.default_ttl⟩)) ∧
    (rSt0.updateTrust 50 "v" 42 = (false, rSt0) ∧
      rSt0.incrementTokens 50 "v" 3 = (false, rSt0)) ∧
    (rSt0.updateTrust 50 "u" 42 =
        (true, rSt0.withEntry (rSt0.key "u")
          ⟨{ rRec0 with trust_score := 42, last_seen := 50 }, some 200⟩) ∧
      (rSt0.incrementTokens 50 "u" 3).2 =
        rSt0.withEntry (rSt0.key "u")
          ⟨{ rRec0 with tokens_used := some (rRec0.tokens_used.getD 0 + 3), last_seen := 50 }, some 200⟩) :=
  ⟨(store_atomic_update_amended memSt0 rSt0 50 "v" 42 3).1 rfl,
   (store_atomic_update_amended memSt0 rSt0 50 "u" 42 3).2.1 memSd (some 100) rfl rfl,
   (store_atomic_update_amended memSt0 rSt0 50 "v" 42 3).2.2.1 rfl,
   (store_atomic_update_amended memSt0 rSt0 50 "u" 42 3).2.2.2 rRec0 (some 200) rfl rfl⟩

/-- C4: two concurrent increment_tokens calls with count 1 on the in-memory
store, interleaved as read-A, read-B, write-A, write-B (each step
individually lock-protected, the read-modify-write pair as a whole not),
leave the counter at 1: one update is lost, where indivisible increments
starting from 0 would leave 0 + 2. -/
theorem mem_increment_lost_update :
    lostUpdateFinal = some 1 ∧ (1 : Int) ≠ 0 + 2 :=
  ⟨rfl, by decide⟩

/-- C7 counterexample: from_dict on a serialized record carrying one
unknown extra field raises TypeError instead of ignoring the field. -/
theorem session_roundtrip_counterexample :
    SessionData.fromDict 0 (memSd.toDict ++ [("extra_field", .jint 1)]) =
      .error "unexpected keyword argument" :=
  rfl

/-- C7 amended: serializing with to_dict and deserializing with from_dict
reproduces every field exactly; but a serialized record that additionally
contains an unknown extra field makes deserialization raise TypeError
(unexpected keyword argument) instead of ignoring it and reproducing the
known fields. -/
theorem session_roundtrip_amended (s : SessionData) (now : Int) (k : String)
    (v : JValue) (hk : sessionFieldNames.contains k = false) :
    SessionData.fromDict now s.toDict = .ok s ∧
    SessionData.fromDict now (s.toDict ++ [(k, v)]) =
      .error "unexpected keyword argument" := by
  constructor
  · cases s
    rfl
  · have hall : (s.toDict ++ [(k, v)]).all
        (fun p => sessionFieldNames.contains p.1) = false := by
      rw [List.all_append]
      simp [hk]
      intro h'
      simpa using hk
    unfold SessionData.fromDict
    rw [hall]
    rfl

/-- Witness for session_roundtrip_amended at a concrete session record and
the unknown key extra. -/
theorem session_roundtrip_amended_witness :
    SessionData.fromDict 0 memSd.toDict = .ok memSd ∧
    SessionData.fromDict 0 (memSd.toDict ++ [("extra", .jint 1)]) =
      .error "unexpected keyword argument" :=
  session_roundtrip_amended memSd 0 "extra" (.jint 1) (by decide)

/-- C8 counterexample: set with ttl None on an in-memory store configured
with default TTL 3600 stores the entry with expiry now+3600, not with no
expiry as claimed. -/
theorem set_ttl_counterexample :
    (memStD.set 0 "u" memSd none).2.store = [("u", ⟨memSd, some 3600⟩)] ∧
    (some (3600 : Int) : Option Int) ≠ none :=
  ⟨rfl, by decide⟩

/-- C8 amended: set with an integer nonzero ttl stores expiry now+ttl,
replacing whatever expiry the key had; set with ttl None falls back to the
store's default TTL, so the entry is stored without expiry only when that
default is absent (or zero, as is a ttl argument of 0); the Redis store
behaves the same around its integer default_ttl. -/
theorem set_ttl_amended (mst : MemStore) (rst : RedisStore) (now : Int)
    (uid : String) (data : SessionData) (r : RedisRecord) (t : Int) :
    (t ≠ 0 → mst.set now uid data (some t) =
      (true, mst.withEntry uid ⟨data, some (now + t)⟩)) ∧
    (mst.set now uid data (some 0) = (true, mst.withEntry uid ⟨data, none⟩)) ∧
    (mst.set now uid data none =
      (true, mst.withEntry uid ⟨data, memExpiryOf now mst.default_ttl⟩)) ∧
    (mst.default_ttl = none →
      mst.set now uid data none = (true, mst.withEntry uid ⟨data, none⟩)) ∧
    (t ≠ 0 → rst.set now uid r (some t) =
      (true, rst.withEntry (rst.key uid) ⟨r, some (now + t)⟩)) ∧
    (rst.default_ttl ≠ 0 → rst.set now uid r none =
      (true, rst.withEntry (rst.key uid) ⟨r, some (now + rst.default_ttl)⟩)) := by
  refine ⟨?_, ?_, ?_, ?_, ?_, ?_⟩
  · intro ht
    simp [MemStore.set, memExpiryOf, MemStore.withEntry, ht]
  · simp [MemStore.set, memExpiryOf, MemStore.withEntry]
  · simp [MemStore.set, MemStore.withEntry]
  · intro hd
    simp [MemStore.set, memExpiryOf, MemStore.withEntry, hd]
  · intro ht
    simp [RedisStore.set, RedisStore.withEntry, ht]
  · intro hd
    simp [RedisStore.set, RedisStore.withEntry, hd]

/-- Witness for set_ttl_amended at concrete stores (memSt0 has no default
TTL, rSt0 the 24h default) and ttl 7. -/
theorem set_ttl_amended_witness :
    (memSt0.set 5 "w" memSd (some 7) =
      (true, memSt0.withEntry "w" ⟨memSd, some 12⟩)) ∧
    (memSt0.set 5 "w" memSd (some 0) = (true, memSt0.withEntry "w" ⟨memSd, none⟩)) ∧
    (memSt0.set 5 "w" memSd none = (true, memSt0.withEntry "w" ⟨memSd, none⟩)) ∧
    (rSt0.set 5 "w" rRec0 (some 7) =
      (true, rSt0.withEntry (rSt0.key "w") ⟨rRec0, some 12⟩)) ∧
    (rSt0.set 5 "w" rRec0 none =
      (true, rSt0.withEntry (rSt0.key "w") ⟨rRec0, some (5 + 86400)⟩)) :=
  ⟨(set_ttl_amended memSt0 rSt0 5 "w" memSd rRec0 7).1 (by decide),
   (set_ttl_amended memSt0 rSt0 5 "w" memSd rRec0 7).2.1,
   (set_ttl_amended memSt0 rSt0 5 "w" memSd rRec0 7).2.2.2.1 rfl,
   (set_ttl_amended memSt0 rSt0 5 "w" memSd rRec0 7).2.2.2.2.1 (by decide),
   (set_ttl_amended memSt0 rSt0 5 "w" memSd rRec0 7).2.2.2.2.2 (by decide)⟩

/-- C9: registering a class whose name is already registered in the local
scope without override raises the duplicate-name ValueError (the registry
left as it was), and registering with override true replaces the class, so
that a subsequent get under that name returns the new class. -/
theorem registry_override (r : Registry) (c c' : PlaneClass)
    (hname : c'.config.name = c.config.name)
    (hreg : assocLookup r.localReg c.config.name = some c) :
    r.register c' false = .error "already registered" ∧
    ∃ r', r.register c' true = .ok r' ∧ r'.get c'.config.name = some c' := by
  constructor
  · simp [Registry.register, hname, hreg]
  · refine ⟨{ r with localReg := assocInsert r.localReg c'.config.name c' }, ?_, ?_⟩
    · simp [Registry.register]
    · unfold Registry.get
      rw [assocLookup_insert_self]

/-- Witness for registry_override: reg0 holds pcA under dup; registering
pcB (same name) fails without override and replaces pcA with override. -/
theorem registry_override_witness :
    reg0.register pcB false = .error "already registered" ∧
    ∃ r', reg0.register pcB true = .ok r' ∧ r'.get "dup" = some pcB :=
  registry_override reg0 pcA pcB rfl rfl

/-- C10: on a live key, the Redis increment script applies the mutation to
the stored record (new total into tokens_used, last_seen set to now, expiry
kept) yet the wrapper reports failure whenever the post-increment total is
not positive. -/
theorem redis_increment_nonpositive (rst : RedisStore) (now : Int) (uid : String)
    (count : Int) (r : RedisRecord) (ex : Option Int)
    (hlook : assocLookup rst.store (rst.key uid) = some ⟨r, ex⟩)
    (hlive : redisLive now ex = true)
    (htot : r.tokens_used.getD 0 + count ≤ 0) :
    rst.incrementTokens now uid count =
      (false, rst.withEntry (rst.key uid)
        ⟨{ r with tokens_used := some (r.tokens_used.getD 0 + count), last_seen := now }, ex⟩) := by
  rw [redis_incrementTokens_live rst now uid count r ex hlook hlive]
  have hdec : decide (r.tokens_used.getD 0 + count > 0) = false := by
    simp only [decide_eq_false_iff_not]
    omega
  rw [hdec]

/-- Witness for redis_increment_nonpositive: incrementing the live zero
counter of rSt0 by 0 reports failure while rewriting the record. -/
theorem redis_increment_nonpositive_witness :
    rSt0.incrementTokens 50 "u" 0 =
      (false, rSt0.withEntry (rSt0.key "u")
        ⟨{ rRec0 with tokens_used := some (rRec0.tokens_used.getD 0 + 0), last_seen := 50 }, some 200⟩) :=
  redis_increment_nonpositive rSt0 50 "u" 0 rRec0 (some 200) rfl rfl (by decide)

end PyGenGuard
